import Mathlib

/-!
Verification of the PnL calculation engine (`PnLCalculator.py`).

The engine is a class holding five inputs (a trade ledger, a position book,
market data, a funding-rate scalar and a record of Greek sensitivities) and
exposing pure PnL computations over them.  Numeric values are modelled as
rationals.

The source performs its tabular arithmetic with pandas Series.  Two Series
with default integer range indices combine elementwise; when their lengths
differ the result is padded to the longer length with NaN, and `.sum()`
skips NaN entries (an all-missing or empty Series sums to 0).  We model a
Series as a `List (Option ℚ)`: `none` is NaN, `salign` is elementwise
combination with NaN propagation and length padding, and `ssum` is the
NaN-skipping sum.  A dataframe column (which contains no NaN here) is a
list of `some` values.
-/

namespace PnL

/-- One row of the trades dataframe: columns buy_price, sell_price,
quantity, transaction_cost. -/
structure Trade where
  buy_price : ℚ
  sell_price : ℚ
  quantity : ℚ
  transaction_cost : ℚ
deriving DecidableEq, Repr

/-- One row of the positions dataframe: columns quantity, price_change,
notional. -/
structure Position where
  quantity : ℚ
  price_change : ℚ
  notional : ℚ
deriving DecidableEq, Repr

/-- One row of the market_data dataframe: columns current_price,
previous_price, model_price, previous_model_price. -/
structure MarketRow where
  current_price : ℚ
  previous_price : ℚ
  model_price : ℚ
  previous_model_price : ℚ
deriving DecidableEq, Repr

/-- The greek_sensitivities dict with keys delta, gamma, vega. -/
structure Greeks where
  delta : ℚ
  gamma : ℚ
  vega : ℚ
deriving DecidableEq, Repr

/-- A pandas Series with a default range index: entry `i` of the list is
the value at index `i`, `none` standing for NaN. -/
abbrev Series := List (Option ℚ)

/-- Elementwise combination of two Series, as pandas does for `+ - * /` on
range-indexed Series: positions present in both sides combine with `f`
(NaN on either side propagates), positions present in only one side
become NaN, and the result has the length of the longer input. -/
def salign (f : ℚ → ℚ → ℚ) : Series → Series → Series
  | [], ys => ys.map fun _ => none
  | xs@(_ :: _), [] => xs.map fun _ => none
  | a :: xs, b :: ys => (a.bind fun x => b.map fun y => f x y) :: salign f xs ys

/-- Multiplication of a Series by a scalar on the left (`scalar * series`
in pandas): elementwise, NaN preserved. -/
def smulL (c : ℚ) (xs : Series) : Series :=
  xs.map (Option.map fun x => c * x)

/-- Multiplication of a Series by a scalar on the right
(`series * scalar`): elementwise, NaN preserved. -/
def smulR (xs : Series) (c : ℚ) : Series :=
  xs.map (Option.map fun x => x * c)

/-- pandas `Series.sum()` with its default `skipna=True`: NaN entries are
dropped and the remaining values are summed; an empty or all-NaN Series
sums to 0. -/
def ssum : Series → ℚ
  | [] => 0
  | none :: xs => ssum xs
  | some x :: xs => x + ssum xs

/-- Extraction of a dataframe column as a Series: `df['field']`.  Rows of
the dataframe hold plain numbers, so every entry is `some`. -/
def col {α : Type} (l : List α) (f : α → ℚ) : Series :=
  l.map fun r => some (f r)

/-- The PnLCalculator class state, as bound by `__init__`: trades,
positions, market_data, funding_rate, greek_sensitivities. -/
structure PnLCalculator where
  trades : List Trade
  positions : List Position
  market_data : List MarketRow
  funding_rate : ℚ
  greeks : Greeks
deriving DecidableEq, Repr

namespace PnLCalculator

/-- `clean_pnl`: `((trades['sell_price'] - trades['buy_price']) *
trades['quantity'] - trades['transaction_cost']).sum()`. -/
def clean_pnl (e : PnLCalculator) : ℚ :=
  ssum (salign (fun a b => a - b)
    (salign (fun a b => a * b)
      (salign (fun a b => a - b)
        (col e.trades Trade.sell_price)
        (col e.trades Trade.buy_price))
      (col e.trades Trade.quantity))
    (col e.trades Trade.transaction_cost))

/-- `hypothetical_pnl`: `(positions['price_change'] *
positions['quantity']).sum()`. -/
def hypothetical_pnl (e : PnLCalculator) : ℚ :=
  ssum (salign (fun a b => a * b)
    (col e.positions Position.price_change)
    (col e.positions Position.quantity))

/-- `books_pnl`: `(positions['price_change'] * positions['quantity']).sum()`
(the book-specific adjustments are a comment in the source, not code). -/
def books_pnl (e : PnLCalculator) : ℚ :=
  ssum (salign (fun a b => a * b)
    (col e.positions Position.price_change)
    (col e.positions Position.quantity))

/-- `gl_pnl(fx_revaluation=0, provisions=0)`:
`books_pnl() + fx_revaluation + provisions`.  The Python defaults are 0;
the defaulted call is `gl_pnl e 0 0` here. -/
def gl_pnl (e : PnLCalculator) (fx_revaluation provisions : ℚ) : ℚ :=
  e.books_pnl + fx_revaluation + provisions

/-- `volcker_pnl`: `market_making_pnl + hedging_pnl - proprietary_pnl`. -/
def volcker_pnl (_e : PnLCalculator)
    (market_making_pnl hedging_pnl proprietary_pnl : ℚ) : ℚ :=
  market_making_pnl + hedging_pnl - proprietary_pnl

/-- `finance_pnl`: `clean_pnl() + hypothetical_pnl() + overhead_costs +
capital_charges + allocations`. -/
def finance_pnl (e : PnLCalculator)
    (overhead_costs capital_charges allocations : ℚ) : ℚ :=
  e.clean_pnl + e.hypothetical_pnl + overhead_costs + capital_charges + allocations

/-- `funding_cost_pnl`: `(funding_rate * positions['notional']).sum()`. -/
def funding_cost_pnl (e : PnLCalculator) : ℚ :=
  ssum (smulL e.funding_rate (col e.positions Position.notional))

/-- `greek_pnl(price_change, volatility_change)`:
`delta*price_change + 0.5*gamma*price_change**2 + vega*volatility_change`. -/
def greek_pnl (e : PnLCalculator) (price_change volatility_change : ℚ) : ℚ :=
  e.greeks.delta * price_change
    + (1 / 2 : ℚ) * e.greeks.gamma * price_change ^ 2
    + e.greeks.vega * volatility_change

/-- `carry_pnl(interest_rate_diff, holding_period)`:
`(interest_rate_diff * positions['notional'] * holding_period).sum()`. -/
def carry_pnl (e : PnLCalculator) (interest_rate_diff holding_period : ℚ) : ℚ :=
  ssum (smulR (smulL interest_rate_diff (col e.positions Position.notional))
    holding_period)

/-- `cash_flow_pnl`: `sum(cash_inflows) - sum(cash_outflows)` (plain Python
lists, not Series). -/
def cash_flow_pnl (_e : PnLCalculator) (cash_inflows cash_outflows : List ℚ) : ℚ :=
  cash_inflows.sum - cash_outflows.sum

/-- `mark_to_market_pnl`: `((market_data['current_price'] -
market_data['previous_price']) * positions['quantity']).sum()`.  The two
dataframes may have different row counts; the Series product aligns on the
range index. -/
def mark_to_market_pnl (e : PnLCalculator) : ℚ :=
  ssum (salign (fun a b => a * b)
    (salign (fun a b => a - b)
      (col e.market_data MarketRow.current_price)
      (col e.market_data MarketRow.previous_price))
    (col e.positions Position.quantity))

/-- `mark_to_model_pnl`: `((market_data['model_price'] -
market_data['previous_model_price']) * positions['quantity']).sum()`. -/
def mark_to_model_pnl (e : PnLCalculator) : ℚ :=
  ssum (salign (fun a b => a * b)
    (salign (fun a b => a - b)
      (col e.market_data MarketRow.model_price)
      (col e.market_data MarketRow.previous_model_price))
    (col e.positions Position.quantity))

/-- `aggregate_greeks_pnl(price_change, volatility_change)`: the same body
as `greek_pnl`, written out again in the source. -/
def aggregate_greeks_pnl (e : PnLCalculator)
    (price_change volatility_change : ℚ) : ℚ :=
  e.greeks.delta * price_change
    + (1 / 2 : ℚ) * e.greeks.gamma * price_change ^ 2
    + e.greeks.vega * volatility_change

end PnLCalculator

/-- The sample trades dataframe of the source's example-usage block. -/
def sample_trades : List Trade :=
  [⟨100, 110, 10, 1⟩, ⟨105, 108, 5, 1⟩]

/-- The sample positions dataframe of the example-usage block. -/
def sample_positions : List Position :=
  [⟨10, 1 / 2, 1000⟩, ⟨15, -(1 / 5), 2000⟩]

/-- The sample market_data dataframe of the example-usage block. -/
def sample_market : List MarketRow :=
  [⟨110, 105, 109, 104⟩, ⟨108, 107, 107, 106⟩]

/-- The sample greek_sensitivities of the example-usage block. -/
def sample_greeks : Greeks := ⟨6 / 5, 1 / 2, 3 / 10⟩

/-- The engine instance `pnl_calc` of the example-usage block
(funding_rate 0.02). -/
def pnl_calc : PnLCalculator :=
  ⟨sample_trades, sample_positions, sample_market, 2 / 100, sample_greeks⟩

/-- An engine whose Market Data has fewer rows (1) than its Position Book
(2): the misaligned configuration of the mark-to-X operations. -/
def misaligned_calc : PnLCalculator :=
  ⟨sample_trades, sample_positions, [⟨110, 105, 109, 104⟩], 2 / 100, sample_greeks⟩

/-- An engine whose Position Book is empty. -/
def empty_positions_calc : PnLCalculator :=
  ⟨sample_trades, [], sample_market, 2 / 100, sample_greeks⟩

/-! Reduction lemmas: pandas Series arithmetic over columns of a single
dataframe (equal lengths, all entries present) reduces to a row-wise map,
and over columns of two dataframes reduces to a `zipWith` on the common
rows, extra rows becoming NaN and being dropped by the skipna sum. -/

lemma ssum_all_none {α : Type} (l : List α) : ssum (l.map fun _ => none) = 0 := by
  induction l with
  | nil => rfl
  | cons a t ih => simpa [ssum] using ih

lemma salign_col_col {α : Type} (f : ℚ → ℚ → ℚ) (g h : α → ℚ) (l : List α) :
    salign f (col l g) (col l h) = l.map fun r => some (f (g r) (h r)) := by
  induction l with
  | nil => rfl
  | cons a t ih => simp [col, salign] at ih ⊢; exact ih

lemma salign_map_some {α : Type} (f : ℚ → ℚ → ℚ) (g : α → ℚ) (l : List α)
    (h : α → ℚ) :
    salign f (l.map fun r => some (g r)) (l.map fun r => some (h r)) =
      l.map fun r => some (f (g r) (h r)) := by
  induction l with
  | nil => rfl
  | cons a t ih => simp [salign] at ih ⊢; exact ih

lemma ssum_map_some {α : Type} (g : α → ℚ) (l : List α) :
    ssum (l.map fun r => some (g r)) = (l.map g).sum := by
  induction l with
  | nil => rfl
  | cons a t ih => simp [ssum, ih]

lemma ssum_salign_zipWith {α β : Type} (f : ℚ → ℚ → ℚ) (g : α → ℚ) (h : β → ℚ)
    (as : List α) (bs : List β) :
    ssum (salign f (as.map fun a => some (g a)) (bs.map fun b => some (h b))) =
      (List.zipWith (fun a b => f (g a) (h b)) as bs).sum := by
  induction as generalizing bs with
  | nil => simpa [salign] using ssum_all_none (bs.map fun b => some (h b))
  | cons a as ih =>
    cases bs with
    | nil => simpa [salign] using ssum_all_none ((a :: as).map fun a => some (g a))
    | cons b bs => simp [salign, ssum, ih]

lemma smulL_col {α : Type} (c : ℚ) (g : α → ℚ) (l : List α) :
    smulL c (col l g) = l.map fun r => some (c * g r) := by
  simp [smulL, col]

lemma smulR_map {α : Type} (c : ℚ) (g : α → ℚ) (l : List α) :
    smulR (l.map fun r => some (g r)) c = l.map fun r => some (g r * c) := by
  simp [smulR]

lemma clean_pnl_rowsum (e : PnLCalculator) :
    e.clean_pnl =
      (e.trades.map fun t =>
        (t.sell_price - t.buy_price) * t.quantity - t.transaction_cost).sum := by
  unfold PnLCalculator.clean_pnl
  rw [salign_col_col]
  unfold col
  rw [salign_map_some, salign_map_some, ssum_map_some]

lemma hypothetical_pnl_rowsum (e : PnLCalculator) :
    e.hypothetical_pnl =
      (e.positions.map fun p => p.price_change * p.quantity).sum := by
  unfold PnLCalculator.hypothetical_pnl
  rw [salign_col_col, ssum_map_some]

lemma books_pnl_rowsum (e : PnLCalculator) :
    e.books_pnl =
      (e.positions.map fun p => p.price_change * p.quantity).sum := by
  unfold PnLCalculator.books_pnl
  rw [salign_col_col, ssum_map_some]

lemma funding_cost_pnl_rowsum (e : PnLCalculator) :
    e.funding_cost_pnl =
      (e.positions.map fun p => e.funding_rate * p.notional).sum := by
  unfold PnLCalculator.funding_cost_pnl
  rw [smulL_col, ssum_map_some]

lemma carry_pnl_rowsum (e : PnLCalculator) (ir hp : ℚ) :
    e.carry_pnl ir hp =
      (e.positions.map fun p => ir * p.notional * hp).sum := by
  unfold PnLCalculator.carry_pnl
  rw [smulL_col, smulR_map, ssum_map_some]

lemma mark_to_market_pnl_zip (e : PnLCalculator) :
    e.mark_to_market_pnl =
      (List.zipWith (fun m p => (m.current_price - m.previous_price) * p.quantity)
        e.market_data e.positions).sum := by
  unfold PnLCalculator.mark_to_market_pnl
  rw [salign_col_col]
  unfold col
  rw [ssum_salign_zipWith]

lemma mark_to_model_pnl_zip (e : PnLCalculator) :
    e.mark_to_model_pnl =
      (List.zipWith
        (fun m p => (m.model_price - m.previous_model_price) * p.quantity)
        e.market_data e.positions).sum := by
  unfold PnLCalculator.mark_to_model_pnl
  rw [salign_col_col]
  unfold col
  rw [ssum_salign_zipWith]

end PnL
namespace PnL

/-- C1: `clean_pnl` returns the sum over all Trade Ledger records of
`(sell_price - buy_price) * quantity - transaction_cost`, and on the
sample Trade Ledger [(buy=100, sell=110, qty=10, cost=1),
(buy=105, sell=108, qty=5, cost=1)] it returns exactly 113. -/
theorem claim_C1_clean_pnl_sum :
    (∀ e : PnLCalculator,
      e.clean_pnl =
        (e.trades.map fun t =>
          (t.sell_price - t.buy_price) * t.quantity - t.transaction_cost).sum)
    ∧ pnl_calc.clean_pnl = 113 := by
  refine ⟨clean_pnl_rowsum, ?_⟩
  norm_num [PnLCalculator.clean_pnl, ssum, salign, col, pnl_calc, sample_trades]

/-- C2: for every engine state and all scalars o, c, a, `finance_pnl`
equals `clean_pnl() + hypothetical_pnl() + o + c + a` on the current
entity state. -/
theorem claim_C2_finance_pnl_composite (e : PnLCalculator) (o c a : ℚ) :
    e.finance_pnl o c a = e.clean_pnl + e.hypothetical_pnl + o + c + a := rfl

/-- C4: the Greek PnL symmetry `greek_pnl(x, v) = greek_pnl(-x, v)` holds
for all price changes x exactly when the stored delta sensitivity is 0:
the gamma term is even in x and the delta term is odd. -/
theorem claim_C4_greek_symmetry (e : PnLCalculator) (v : ℚ) :
    (∀ x : ℚ, e.greek_pnl x v = e.greek_pnl (-x) v) ↔ e.greeks.delta = 0 := by
  constructor
  · intro h
    have h1 := h 1
    simp [PnLCalculator.greek_pnl] at h1
    linarith
  · intro hd x
    simp [PnLCalculator.greek_pnl, hd]

/-- C5: when the Position Book is empty, `hypothetical_pnl`, `books_pnl`,
`funding_cost_pnl` and `carry_pnl(r, h)` for any scalars r and h all
return exactly 0 — a silent zero result, not an error. -/
theorem claim_C5_zero_position (e : PnLCalculator) (r h : ℚ)
    (hpos : e.positions = []) :
    e.hypothetical_pnl = 0 ∧ e.books_pnl = 0 ∧ e.funding_cost_pnl = 0 ∧
      e.carry_pnl r h = 0 := by
  simp [hypothetical_pnl_rowsum, books_pnl_rowsum, funding_cost_pnl_rowsum,
    carry_pnl_rowsum, hpos]

/-- Witness for C5 at a concrete engine whose Position Book is empty. -/
theorem claim_C5_zero_position_witness :
    empty_positions_calc.hypothetical_pnl = 0 ∧
      empty_positions_calc.books_pnl = 0 ∧
      empty_positions_calc.funding_cost_pnl = 0 ∧
      empty_positions_calc.carry_pnl (1 / 100) 30 = 0 :=
  claim_C5_zero_position empty_positions_calc (1 / 100) 30 rfl

/-- C6: `gl_pnl(fx, prov) = books_pnl() + fx + prov` for all scalars, and
with both arguments at their default value 0 it equals `books_pnl()`. -/
theorem claim_C6_gl_consistency (e : PnLCalculator) (fx prov : ℚ) :
    e.gl_pnl fx prov = e.books_pnl + fx + prov ∧ e.gl_pnl 0 0 = e.books_pnl := by
  refine ⟨rfl, ?_⟩
  simp [PnLCalculator.gl_pnl]

/-- C7: `clean_pnl` is additive over the Trade Ledger: splitting a ledger
into sub-ledgers A and B (the original being their disjoint union A ++ B)
splits the result into the two sub-ledger results. -/
theorem claim_C7_clean_pnl_additive (A B : List Trade) (pos : List Position)
    (md : List MarketRow) (fr : ℚ) (gk : Greeks) :
    PnLCalculator.clean_pnl ⟨A ++ B, pos, md, fr, gk⟩ =
      PnLCalculator.clean_pnl ⟨A, pos, md, fr, gk⟩ +
        PnLCalculator.clean_pnl ⟨B, pos, md, fr, gk⟩ := by
  simp [clean_pnl_rowsum]

/-- C8: `funding_cost_pnl` equals the funding-rate scalar times the sum of
notional over the Position Book, and on the sample data (rate 0.02,
notionals 1000 and 2000) it returns 60. -/
theorem claim_C8_funding_cost :
    (∀ e : PnLCalculator,
      e.funding_cost_pnl = e.funding_rate * (e.positions.map Position.notional).sum)
    ∧ pnl_calc.funding_cost_pnl = 60 := by
  constructor
  · intro e
    rw [funding_cost_pnl_rowsum]
    induction e.positions with
    | nil => simp
    | cons p t ih => simp [ih]; ring
  · norm_num [PnLCalculator.funding_cost_pnl, ssum, smulL, col, pnl_calc,
      sample_positions]

/-- C9: the duplicate entry points agree with their primary counterparts on
every engine state and all scalar arguments: `books_pnl` with
`hypothetical_pnl`, and `aggregate_greeks_pnl` with `greek_pnl`. -/
theorem claim_C9_duplicate_entry_points (e : PnLCalculator) (x v : ℚ) :
    e.books_pnl = e.hypothetical_pnl ∧
      e.aggregate_greeks_pnl x v = e.greek_pnl x v :=
  ⟨rfl, rfl⟩

/-- C10: `clean_pnl` depends only on the Trade Ledger: two engines built
with the same trades but arbitrary positions, market data, funding rates
and Greek sensitivities return the same value. -/
theorem claim_C10_clean_pnl_noninterference (t : List Trade)
    (p1 p2 : List Position) (m1 m2 : List MarketRow) (f1 f2 : ℚ)
    (g1 g2 : Greeks) :
    PnLCalculator.clean_pnl ⟨t, p1, m1, f1, g1⟩ =
      PnLCalculator.clean_pnl ⟨t, p2, m2, f2, g2⟩ := rfl

/-- C3 counterexample: with a Position Book of 2 rows and Market Data of
1 row, `mark_to_market_pnl` and `mark_to_model_pnl` do not fail: each
returns the numeric result 50 (the extra position row is dropped by the
NaN-skipping sum), contradicting the claimed alignment failure. -/
theorem claim_C3_counterexample :
    misaligned_calc.market_data.length ≠ misaligned_calc.positions.length ∧
      misaligned_calc.mark_to_market_pnl = 50 ∧
      misaligned_calc.mark_to_model_pnl = 50 := by
  refine ⟨by simp [misaligned_calc, sample_positions], ?_, ?_⟩ <;>
    norm_num [PnLCalculator.mark_to_market_pnl, PnLCalculator.mark_to_model_pnl,
      ssum, salign, col, misaligned_calc, sample_positions]

/-- C3 (amended): when the Position Book and Market Data row counts differ,
`mark_to_market_pnl` and `mark_to_model_pnl` do not raise an alignment
error; they return the numeric sum over the index-aligned common rows,
rows present in only one dataset contributing nothing. -/
theorem claim_C3_mark_to_x_alignment (e : PnLCalculator) :
    e.mark_to_market_pnl =
      (List.zipWith (fun m p => (m.current_price - m.previous_price) * p.quantity)
        e.market_data e.positions).sum ∧
    e.mark_to_model_pnl =
      (List.zipWith
        (fun m p => (m.model_price - m.previous_model_price) * p.quantity)
        e.market_data e.positions).sum :=
  ⟨mark_to_market_pnl_zip e, mark_to_model_pnl_zip e⟩

end PnL
